import Mathlib

/-!
Shallow embedding of the display bring-up subsystem of
src/ion/platform/device/display.c, together with theorems checking the
natural-language specification of the subsystem against that code.

The embedding has two layers:
  - a trace model: each hardware routine is rendered as the sequence of
    register accesses it performs, used for ordering and no-write claims;
  - a functional model: the arithmetically interesting parts (pixel-clock
    derivation, timing accumulation, single-bit GPIO updates, the blocking
    SPI write loop) are rendered as executable functions, used for
    numerical and frame-condition claims.

Field-packing macros (bit positions inside a register) live in a header
that is not part of the sources; register writes therefore record the
field arguments of the source expressions abstractly rather than a packed
32-bit word.
-/

namespace Display

/-- Hardware registers touched by the display bring-up code
(src/ion/platform/device/display.c). Layer-1 registers of the LTDC carry
a 1 suffix. -/
inductive Reg where
  | RCC_APB2ENR
  | RCC_PLLSAICFGR
  | RCC_DCKCFGR
  | RCC_CR
  | LTDC_SSCR
  | LTDC_BPCR
  | LTDC_AWCR
  | LTDC_TWCR
  | LTDC_GCR
  | LTDC_BCCR
  | LTDC_LWHPCR1
  | LTDC_LWVPCR1
  | LTDC_LPFCR1
  | LTDC_LCFBAR1
  | LTDC_LCFBLR1
  | LTDC_LCFBLNR1
  | LTDC_LCR1
  | LTDC_SRCR
  | GPIOC_ODR
  | GPIOD_ODR
  deriving DecidableEq, Repr

/-- Field arguments of a register write, as they appear in the source
expressions. Numeric fields are recorded with their computed value;
named constants whose packed value lives in the missing register header
are recorded symbolically. -/
inductive Arg where
  | n : Nat → Arg
  | PF_L8
  | FB_ADDRESS
  | PCPOL
  | LTDC_LTDCEN
  | LEN
  | IMR
  | DIV8
  | LTDCEN
  | PLLSAION
  | PLLON
  deriving DecidableEq, Repr

/-- Register fields written through REGISTER_SET_VALUE in init_rgb_clocks. -/
inductive FieldId where
  | PLLSAIN
  | PLLSAIR
  | PLLSAIDIVR
  deriving DecidableEq, Repr

/-- One register access performed by the bring-up code: a full assignment
(REG = v), a read-modify-or (REG |= v), a masked field update
(REGISTER_SET_VALUE), or a poll-loop read. -/
inductive Ev where
  | assign : Reg → List Arg → Ev
  | orSet : Reg → List Arg → Ev
  | fieldSet : Reg → FieldId → Arg → Ev
  | read : Reg → Ev
  deriving DecidableEq, Repr

/-- Register targeted by an access. -/
def Ev.reg : Ev → Reg
  | .assign r _ => r
  | .orSet r _ => r
  | .fieldSet r _ _ => r
  | .read r => r

/-- True when the access is a poll-loop read. -/
def Ev.isRead : Ev → Bool
  | .read _ => true
  | _ => false

/-- Modelled from the spec: the framebuffer width constant
ION_FRAMEBUFFER_WIDTH; the ion header defining it is not among the
sources. The spec end-to-end vector fixes the active width at 240. -/
def ION_FRAMEBUFFER_WIDTH : Nat := 240

/-- Modelled from the spec: the framebuffer height constant
ION_FRAMEBUFFER_HEIGHT; the ion header defining it is not among the
sources. The spec end-to-end vector fixes the active height at 320. -/
def ION_FRAMEBUFFER_HEIGHT : Nat := 320

/-- Panel timing descriptor: the eight lcd_panel values of
init_rgb_timings. -/
structure TimingDescriptor where
  hsync : Nat
  hbp : Nat
  hactive : Nat
  hfp : Nat
  vsync : Nat
  vbp : Nat
  vactive : Nat
  vfp : Nat
  deriving DecidableEq, Repr

/-- The concrete descriptor hard-coded in init_rgb_timings
(lines 184 to 191 of display.c). -/
def lcd_panel : TimingDescriptor :=
  ⟨10, 20, ION_FRAMEBUFFER_WIDTH, 10, 2, 2, ION_FRAMEBUFFER_HEIGHT, 4⟩

/-- LTDC_HSW field of LTDC_SSCR: hsync width minus one. -/
def HSW (t : TimingDescriptor) : Nat := t.hsync - 1

/-- LTDC_AHBP field of LTDC_BPCR: accumulated hsync plus back porch
minus one. -/
def AHBP (t : TimingDescriptor) : Nat := t.hsync + t.hbp - 1

/-- LTDC_AAW field of LTDC_AWCR: accumulated hsync plus back porch plus
active width minus one. -/
def AAW (t : TimingDescriptor) : Nat := t.hsync + t.hbp + t.hactive - 1

/-- LTDC_TOTALW field of LTDC_TWCR: accumulated hsync plus back porch
plus active width plus front porch minus one. -/
def TOTALW (t : TimingDescriptor) : Nat :=
  t.hsync + t.hbp + t.hactive + t.hfp - 1

/-- LTDC_VSH field of LTDC_SSCR: vsync width minus one. -/
def VSH (t : TimingDescriptor) : Nat := t.vsync - 1

/-- LTDC_AVBP field of LTDC_BPCR: accumulated vsync plus back porch
minus one. -/
def AVBP (t : TimingDescriptor) : Nat := t.vsync + t.vbp - 1

/-- LTDC_AAH field of LTDC_AWCR: accumulated vsync plus back porch plus
active height minus one. -/
def AAH (t : TimingDescriptor) : Nat := t.vsync + t.vbp + t.vactive - 1

/-- LTDC_TOTALH field of LTDC_TWCR: accumulated vsync plus back porch
plus active height plus front porch minus one. -/
def TOTALH (t : TimingDescriptor) : Nat :=
  t.vsync + t.vbp + t.vactive + t.vfp - 1

/-- Register-access trace of init_rgb_timings (display.c lines 200 to
290), line by line. The layer-configuration tail is part of the same
function because the closing brace that would have ended it is commented
out in the source. The color-frame-buffer length registers use the
framebuffer constants directly, exactly as the source does. -/
def init_rgb_timings_trace (t : TimingDescriptor) : List Ev :=
  [ .assign .LTDC_SSCR [.n (VSH t), .n (HSW t)],
    .assign .LTDC_BPCR [.n (AVBP t), .n (AHBP t)],
    .assign .LTDC_AWCR [.n (AAH t), .n (AAW t)],
    .assign .LTDC_TWCR [.n (TOTALH t), .n (TOTALW t)],
    .orSet .LTDC_GCR [.PCPOL],
    .assign .LTDC_BCCR [.n 0x00FF00FF],
    .assign .LTDC_LWHPCR1 [.n (t.hsync + t.hbp), .n (t.hsync + t.hbp + t.hactive - 1)],
    .assign .LTDC_LWVPCR1 [.n (t.vsync + t.vbp), .n (t.vsync + t.vbp + t.vactive - 1)],
    .assign .LTDC_LPFCR1 [.PF_L8],
    .assign .LTDC_LCFBAR1 [.FB_ADDRESS],
    .assign .LTDC_LCFBLR1 [.n (ION_FRAMEBUFFER_WIDTH + 3), .n ION_FRAMEBUFFER_WIDTH],
    .assign .LTDC_LCFBLNR1 [.n ION_FRAMEBUFFER_HEIGHT],
    .assign .LTDC_LCR1 [.LEN],
    .assign .LTDC_SRCR [.IMR],
    .orSet .LTDC_GCR [.LTDC_LTDCEN] ]

/-- Register-write trace of init_rgb_clocks (display.c lines 136 to
170): the five writes the routine performs before entering its lock
wait. The routine takes no clock-plan input and contains no validation
or error path; these writes are unconditional. -/
def init_rgb_clocks_trace : List Ev :=
  [ .orSet .RCC_APB2ENR [.LTDCEN],
    .fieldSet .RCC_PLLSAICFGR .PLLSAIN (.n 192),
    .fieldSet .RCC_PLLSAICFGR .PLLSAIR (.n 4),
    .fieldSet .RCC_DCKCFGR .PLLSAIDIVR .DIV8,
    .orSet .RCC_CR [.PLLSAION, .PLLON] ]

/-- Clock plan of the PLLSAI pixel-clock chain, per the comment block of
init_rgb_clocks: PXL = input * PLLSAIN / (PLLM * PLLSAIR * PLLSAIDIVR). -/
structure ClockPlan where
  target : Nat
  input : Nat
  pllM : Nat
  saiN : Nat
  saiR : Nat
  saiDivR : Nat
  deriving DecidableEq, Repr

/-- Documented stage bounds from the init_rgb_clocks comment block:
2 to 63 for PLLM, 49 to 432 for PLLSAIN, 2 to 7 for PLLSAIR, and a power
of two between 2 and 16 for PLLSAIDIVR. -/
def ClockPlan.inBounds (p : ClockPlan) : Prop :=
  2 ≤ p.pllM ∧ p.pllM ≤ 63 ∧
  49 ≤ p.saiN ∧ p.saiN ≤ 432 ∧
  2 ≤ p.saiR ∧ p.saiR ≤ 7 ∧
  (p.saiDivR = 2 ∨ p.saiDivR = 4 ∨ p.saiDivR = 8 ∨ p.saiDivR = 16)

instance (p : ClockPlan) : Decidable p.inBounds := by
  unfold ClockPlan.inBounds; infer_instance

/-- Pixel clock derived by the source chain
VCO = input * (PLLSAIN / PLLM), PLL_LCD = VCO / PLLSAIR,
PXL = PLL_LCD / PLLSAIDIVR, written as one exact quotient. -/
def pxlClock (p : ClockPlan) : Nat :=
  p.input * p.saiN / (p.pllM * p.saiR * p.saiDivR)

/-- Pixel-clock formula as the spec words it, with no PLLM prescaler:
input times multiplier over post-divider times output divider. Declared
only to compare the spec wording with the source chain. -/
def specClaimedPxlClock (p : ClockPlan) : Nat :=
  p.input * p.saiN / (p.saiR * p.saiDivR)

/-- The concrete plan programmed by init_rgb_clocks: target 6 MHz from
the 16 MHz HSI with the default PLLM of 16, PLLSAIN 192, PLLSAIR 4,
PLLSAIDIVR 8. -/
def sourcePlan : ClockPlan := ⟨6, 16, 16, 192, 4, 8⟩

/-- Modelled from the spec: the PLLSAI ready mask of RCC_CR; the
register header giving its packed value is not among the sources. Only
its nonzero single-bit shape matters to the lock-wait model. -/
def PLLSAIRDY : Nat := 2 ^ 29

/-- Modelled from the spec: the main PLL ready mask of RCC_CR; the
register header giving its packed value is not among the sources. -/
def PLLRDY : Nat := 2 ^ 25

/-- Modelled from the spec: the busy mask of the SPI status register;
the register header giving its packed value is not among the sources. -/
def SPI_BSY : Nat := 128

/-- Modelled from the spec: the transmit-buffer-empty mask of the SPI
status register; the register header is not among the sources. -/
def SPI_TXE : Nat := 2

/-- One access of the SPI5 peripheral performed by spi_5_write: a read
of the status register returning value v, or a load of a byte into the
data register. -/
inductive SpiEv where
  | rdSR : Nat → SpiEv
  | wrDR : Nat → SpiEv
  deriving DecidableEq, Repr

/-- Busy-wait loop: reads successive status values from the stream sr
starting at cursor c and spins while p holds of the value read, as the
while loops of display.c do. The source loops carry no bound; the fuel
argument only truncates the model, and a return of none means the
source loop is still spinning after that many reads. -/
def pollWhile (p : Nat → Bool) (sr : Nat → Nat) : Nat → Nat → Option (Nat × List SpiEv)
  | 0, _ => none
  | f + 1, c =>
    if p (sr c) then
      match pollWhile p sr f (c + 1) with
      | none => none
      | some (c2, es) => some (c2, .rdSR (sr c) :: es)
    else
      some (c + 1, [.rdSR (sr c)])

/-- Clock-lock wait of init_rgb_clocks (display.c line 173): spins while
either PLLSAIRDY or PLLRDY reads as zero in RCC_CR. -/
def clockLockWait (rcc : Nat → Nat) (f c : Nat) : Option (Nat × List SpiEv) :=
  pollWhile (fun v => v &&& PLLSAIRDY == 0 || v &&& PLLRDY == 0) rcc f c

/-- Per-byte loop of spi_5_write: for each byte, load it into the data
register, then spin while TXE reads clear. -/
def sendLoop (sr : Nat → Nat) (f : Nat) : List Nat → Nat → Option (Nat × List SpiEv)
  | [], c => some (c, [])
  | b :: bs, c =>
    match pollWhile (fun v => v &&& SPI_TXE == 0) sr f (c) with
    | none => none
    | some (c1, es) =>
      match sendLoop sr f bs c1 with
      | none => none
      | some (c2, tr) => some (c2, .wrDR b :: (es ++ tr))

/-- Blocking write of display.c lines 306 to 316: spin while BSY, then
per byte load the data register and spin while TXE is clear, then spin
while BSY again. Returns the final cursor and the access trace, or none
when a poll loop is still spinning after f reads. -/
def spi_5_write (sr : Nat → Nat) (data : List Nat) (f c : Nat) : Option (Nat × List SpiEv) :=
  match pollWhile (fun v => v &&& SPI_BSY != 0) sr f c with
  | none => none
  | some (c1, es0) =>
    match sendLoop sr f data c1 with
    | none => none
    | some (c2, str) =>
      match pollWhile (fun v => v &&& SPI_BSY != 0) sr f c2 with
      | none => none
      | some (c3, esF) => some (c3, es0 ++ (str ++ esF))

/-- Bytes loaded into the data register along a trace. -/
def writesOf (tr : List SpiEv) : List Nat :=
  tr.filterMap fun e => match e with
    | .wrDR b => some b
    | .rdSR _ => none

/-- True when some status read observed before the first data-register
load had the TXE mask set. -/
def txeBeforeFirstWrite (tr : List SpiEv) : Bool :=
  (tr.takeWhile fun e => match e with
    | .rdSR _ => true
    | .wrDR _ => false).any fun e => match e with
    | .rdSR v => v &&& SPI_TXE != 0
    | .wrDR _ => false

mutual

/-- Grammar of a completed spi_5_write trace against the byte list it was
given, phase 1: the initial wait, reads with BSY set ending in one read
with BSY clear, then the send phase. -/
def phaseStart (tr : List SpiEv) (data : List Nat) : Bool :=
  match tr with
  | .rdSR v :: rest =>
    if v &&& SPI_BSY != 0 then phaseStart rest data else phaseSend rest data
  | _ => false
termination_by (tr.length, 3)

/-- Phase 2: each remaining byte is loaded, in order, followed by its
TXE wait; once no byte remains, the final BSY wait closes the trace. -/
def phaseSend (tr : List SpiEv) (data : List Nat) : Bool :=
  match data with
  | [] => finalWaitOk tr
  | b :: bs =>
    match tr with
    | .wrDR b2 :: rest => b2 == b && phaseTxe rest bs
    | _ => false
termination_by (tr.length, 1)

/-- Phase 3: the wait after a load, reads with TXE clear ending in one
read with TXE set, then back to the send phase. -/
def phaseTxe (tr : List SpiEv) (data : List Nat) : Bool :=
  match tr with
  | .rdSR v :: rest =>
    if v &&& SPI_TXE == 0 then phaseTxe rest data else phaseSend rest data
  | _ => false
termination_by (tr.length, 2)

/-- Final phase: reads with BSY set ending in one read with BSY clear,
which is the last event of the trace. -/
def finalWaitOk (tr : List SpiEv) : Bool :=
  match tr with
  | .rdSR v :: rest =>
    if v &&& SPI_BSY != 0 then finalWaitOk rest else rest.isEmpty
  | _ => false
termination_by (tr.length, 0)

end

/-- Status stream for which the only read before the first byte load has
TXE clear: not busy and not ready-to-send at cursor 0, ready at cursor 1,
idle afterwards. -/
def srNoTxeFirst : Nat → Nat := fun c => if c = 1 then SPI_TXE else 0

/-- Modelled from the spec: semantics of the REGISTER_SET_VALUE macro of
the missing register header on a single-bit field at position pos: clear
the bit, then or in the new value shifted into place, inside a 32-bit
register. -/
def regSetBit (x pos : Nat) (b : Bool) : Nat :=
  (x &&& ((2 ^ 32 - 1) ^^^ (1 <<< pos))) ||| ((if b then 1 else 0) <<< pos)

/-- Register file as a total map from register names to values. -/
def RegState : Type := Reg → Nat

/-- Chip-select line write of display.c lines 318 to 320: sets bit 2 of
the GPIOC output-data register to the argument. -/
def gpio_c2_write (pin_state : Bool) (s : RegState) : RegState :=
  fun r => if r = .GPIOC_ODR then regSetBit (s .GPIOC_ODR) 2 pin_state else s r

/-- Data-or-command line write of display.c lines 322 to 324: sets bit
13 of the GPIOD output-data register to the argument. -/
def gpio_d13_write (pin_state : Bool) (s : RegState) : RegState :=
  fun r => if r = .GPIOD_ODR then regSetBit (s .GPIOD_ODR) 13 pin_state else s r

end Display

/-! Helper lemmas about the busy-wait and SPI trace models. -/

namespace Display

theorem regSetBit_testBit (x pos : Nat) (b : Bool) (i : Nat) (hi : i < 32) :
    (regSetBit x pos b).testBit i = if i = pos then b else x.testBit i := by
  unfold regSetBit
  have h1 : (1 : Nat) <<< pos = 2 ^ pos := by rw [Nat.shiftLeft_eq, one_mul]
  rw [h1, Nat.testBit_lor, Nat.testBit_land, Nat.testBit_xor,
    Nat.testBit_two_pow_sub_one, Nat.testBit_shiftLeft, Nat.testBit_two_pow]
  by_cases h : i = pos
  · subst h
    simp [Nat.sub_self, hi]
    cases b <;> simp [Nat.zero_testBit]
  · simp [h, Ne.symm h, hi]
    by_cases hge : i ≥ pos
    · have h2 : i - pos ≠ 0 := by omega
      have h3 : (if b = true then (1 : Nat) else 0).testBit (i - pos) = false := by
        cases b
        · simp [Nat.zero_testBit]
        · have h4 : (1 : Nat) = 2 ^ 0 := rfl
          simp only [if_true]
          rw [h4, Nat.testBit_two_pow]
          simp [Ne.symm h2]
      simp [hge, h3]
    · simp [hge]

theorem pollWhile_stuck {p : Nat → Bool} {sr : Nat → Nat} (h : ∀ c, p (sr c) = true) :
    ∀ f c, pollWhile p sr f c = none := by
  intro f
  induction f with
  | zero => intro c; rfl
  | succ f ih =>
    intro c
    unfold pollWhile
    rw [h c]
    simp [ih (c + 1)]

theorem pollWhile_bsy_start {sr : Nat → Nat} :
    ∀ f c c2 es, pollWhile (fun v => v &&& SPI_BSY != 0) sr f c = some (c2, es) →
      ∀ tr data, phaseStart (es ++ tr) data = phaseSend tr data := by
  intro f
  induction f with
  | zero => intro c c2 es h; exact absurd h (by simp [pollWhile])
  | succ f ih =>
    intro c c2 es h
    unfold pollWhile at h
    by_cases hc : (sr c &&& SPI_BSY != 0) = true
    · rw [hc] at h
      simp only [if_true] at h
      cases hrec : pollWhile (fun v => v &&& SPI_BSY != 0) sr f (c + 1) with
      | none => rw [hrec] at h; simp at h
      | some p =>
        obtain ⟨c2x, es2⟩ := p
        rw [hrec] at h
        simp only [Option.some.injEq, Prod.mk.injEq] at h
        obtain ⟨h1, h2⟩ := h
        subst h1; subst h2
        intro tr data
        show phaseStart (SpiEv.rdSR (sr c) :: (es2 ++ tr)) data = _
        unfold phaseStart
        rw [hc]
        simp only [if_true]
        exact ih (c + 1) _ es2 hrec tr data
    · rw [Bool.not_eq_true] at hc
      rw [hc] at h
      simp only [Bool.false_eq_true, if_false, Option.some.injEq, Prod.mk.injEq] at h
      obtain ⟨h1, h2⟩ := h
      subst h1; subst h2
      intro tr data
      show phaseStart (SpiEv.rdSR (sr c) :: tr) data = _
      unfold phaseStart
      rw [hc]
      simp

theorem pollWhile_txe_phase {sr : Nat → Nat} :
    ∀ f c c2 es, pollWhile (fun v => v &&& SPI_TXE == 0) sr f c = some (c2, es) →
      ∀ tr data, phaseTxe (es ++ tr) data = phaseSend tr data := by
  intro f
  induction f with
  | zero => intro c c2 es h; exact absurd h (by simp [pollWhile])
  | succ f ih =>
    intro c c2 es h
    unfold pollWhile at h
    by_cases hc : (sr c &&& SPI_TXE == 0) = true
    · rw [hc] at h
      simp only [if_true] at h
      cases hrec : pollWhile (fun v => v &&& SPI_TXE == 0) sr f (c + 1) with
      | none => rw [hrec] at h; simp at h
      | some p =>
        obtain ⟨c2x, es2⟩ := p
        rw [hrec] at h
        simp only [Option.some.injEq, Prod.mk.injEq] at h
        obtain ⟨h1, h2⟩ := h
        subst h1; subst h2
        intro tr data
        show phaseTxe (SpiEv.rdSR (sr c) :: (es2 ++ tr)) data = _
        unfold phaseTxe
        rw [hc]
        simp only [if_true]
        exact ih (c + 1) _ es2 hrec tr data
    · rw [Bool.not_eq_true] at hc
      rw [hc] at h
      simp only [Bool.false_eq_true, if_false, Option.some.injEq, Prod.mk.injEq] at h
      obtain ⟨h1, h2⟩ := h
      subst h1; subst h2
      intro tr data
      show phaseTxe (SpiEv.rdSR (sr c) :: tr) data = _
      unfold phaseTxe
      rw [hc]
      simp

theorem pollWhile_bsy_final {sr : Nat → Nat} :
    ∀ f c c2 es, pollWhile (fun v => v &&& SPI_BSY != 0) sr f c = some (c2, es) →
      finalWaitOk es = true := by
  intro f
  induction f with
  | zero => intro c c2 es h; exact absurd h (by simp [pollWhile])
  | succ f ih =>
    intro c c2 es h
    unfold pollWhile at h
    by_cases hc : (sr c &&& SPI_BSY != 0) = true
    · rw [hc] at h
      simp only [if_true] at h
      cases hrec : pollWhile (fun v => v &&& SPI_BSY != 0) sr f (c + 1) with
      | none => rw [hrec] at h; simp at h
      | some p =>
        obtain ⟨c2x, es2⟩ := p
        rw [hrec] at h
        simp only [Option.some.injEq, Prod.mk.injEq] at h
        obtain ⟨h1, h2⟩ := h
        subst h1; subst h2
        unfold finalWaitOk
        rw [hc]
        simp only [if_true]
        exact ih (c + 1) _ es2 hrec
    · rw [Bool.not_eq_true] at hc
      rw [hc] at h
      simp only [Bool.false_eq_true, if_false, Option.some.injEq, Prod.mk.injEq] at h
      obtain ⟨h1, h2⟩ := h
      subst h1; subst h2
      unfold finalWaitOk
      rw [hc]
      simp

theorem pollWhile_reads {p : Nat → Bool} {sr : Nat → Nat} :
    ∀ f c c2 es, pollWhile p sr f c = some (c2, es) → writesOf es = [] := by
  intro f
  induction f with
  | zero => intro c c2 es h; exact absurd h (by simp [pollWhile])
  | succ f ih =>
    intro c c2 es h
    unfold pollWhile at h
    by_cases hc : p (sr c) = true
    · rw [hc] at h
      simp only [if_true] at h
      cases hrec : pollWhile p sr f (c + 1) with
      | none => rw [hrec] at h; simp at h
      | some q =>
        obtain ⟨c2x, es2⟩ := q
        rw [hrec] at h
        simp only [Option.some.injEq, Prod.mk.injEq] at h
        obtain ⟨h1, h2⟩ := h
        subst h1; subst h2
        simp only [writesOf, List.filterMap_cons]
        exact ih (c + 1) _ es2 hrec
    · rw [Bool.not_eq_true] at hc
      rw [hc] at h
      simp only [Bool.false_eq_true, if_false, Option.some.injEq, Prod.mk.injEq] at h
      obtain ⟨h1, h2⟩ := h
      subst h1; subst h2
      simp [writesOf]

theorem writesOf_append (a b : List SpiEv) :
    writesOf (a ++ b) = writesOf a ++ writesOf b := by
  simp [writesOf, List.filterMap_append]

theorem sendLoop_phase {sr : Nat → Nat} {f : Nat} :
    ∀ data c c2 str, sendLoop sr f data c = some (c2, str) →
      ∀ esF, finalWaitOk esF = true → phaseSend (str ++ esF) data = true := by
  intro data
  induction data with
  | nil =>
    intro c c2 str h esF hF
    simp only [sendLoop, Option.some.injEq, Prod.mk.injEq] at h
    obtain ⟨h1, h2⟩ := h
    subst h1; subst h2
    simpa [phaseSend] using hF
  | cons b bs ih =>
    intro c c2 str h esF hF
    unfold sendLoop at h
    cases hp : pollWhile (fun v => v &&& SPI_TXE == 0) sr f c with
    | none => rw [hp] at h; simp at h
    | some q =>
      obtain ⟨c1, es⟩ := q
      rw [hp] at h
      dsimp only at h
      cases hs : sendLoop sr f bs c1 with
      | none => rw [hs] at h; simp at h
      | some q2 =>
        obtain ⟨c2x, tr⟩ := q2
        rw [hs] at h
        simp only [Option.some.injEq, Prod.mk.injEq] at h
        obtain ⟨h1, h2⟩ := h
        subst h1; subst h2
        show phaseSend (SpiEv.wrDR b :: (es ++ tr) ++ esF) (b :: bs) = true
        unfold phaseSend
        simp only [List.cons_append, List.append_assoc, beq_self_eq_true, Bool.true_and]
        rw [pollWhile_txe_phase f c c1 es hp]
        exact ih c1 _ tr hs esF hF

theorem sendLoop_writes {sr : Nat → Nat} {f : Nat} :
    ∀ data c c2 str, sendLoop sr f data c = some (c2, str) → writesOf str = data := by
  intro data
  induction data with
  | nil =>
    intro c c2 str h
    simp only [sendLoop, Option.some.injEq, Prod.mk.injEq] at h
    obtain ⟨h1, h2⟩ := h
    subst h1; subst h2
    simp [writesOf]
  | cons b bs ih =>
    intro c c2 str h
    unfold sendLoop at h
    cases hp : pollWhile (fun v => v &&& SPI_TXE == 0) sr f c with
    | none => rw [hp] at h; simp at h
    | some q =>
      obtain ⟨c1, es⟩ := q
      rw [hp] at h
      dsimp only at h
      cases hs : sendLoop sr f bs c1 with
      | none => rw [hs] at h; simp at h
      | some q2 =>
        obtain ⟨c2x, tr⟩ := q2
        rw [hs] at h
        simp only [Option.some.injEq, Prod.mk.injEq] at h
        obtain ⟨h1, h2⟩ := h
        subst h1; subst h2
        have hes := pollWhile_reads f c c1 es hp
        have htr := ih c1 _ tr hs
        simp only [writesOf, List.filterMap_cons, List.filterMap_append] at hes htr ⊢
        rw [hes, htr]
        simp

end Display

/-! Claim theorems. -/

namespace Display

/-- C1: the claim says every hardware-status poll fails with
HardwareTimeout after a fixed number of iterations. The source code has
no such budget: with a stuck status flag (RCC_CR reading 0 forever, or
SPI_SR reading BSY forever), the clock-lock wait of init_rgb_clocks and
the write loops of spi_5_write are still spinning after every finite
number of poll reads, for any starting cursor and any byte buffer, so
the source loops forever instead of returning HardwareTimeout. -/
theorem spec_c1_unbounded_busy_waits :
    (∀ f c, clockLockWait (fun _ => 0) f c = none) ∧
    (∀ data f c, spi_5_write (fun _ => SPI_BSY) data f c = none) := by
  constructor
  · intro f c
    exact pollWhile_stuck (fun c => by decide) f c
  · intro data f c
    unfold spi_5_write
    rw [pollWhile_stuck (fun c => by decide) f c]

/-- C2: the claim says an out-of-bound ClockPlan fails with
InvalidConfiguration before any register write. The source
init_rgb_clocks accepts no plan at all and validates nothing: it
unconditionally performs its five register writes, the PLL stage writes
among them, with no error path of any kind. -/
theorem spec_c2_clock_writes_unconditional :
    init_rgb_clocks_trace.length = 5 ∧
    Ev.fieldSet .RCC_PLLSAICFGR .PLLSAIN (.n 192) ∈ init_rgb_clocks_trace ∧
    Ev.fieldSet .RCC_PLLSAICFGR .PLLSAIR (.n 4) ∈ init_rgb_clocks_trace ∧
    Ev.fieldSet .RCC_DCKCFGR .PLLSAIDIVR .DIV8 ∈ init_rgb_clocks_trace := by
  decide

/-- C3 counterexample: at the concrete source stages (input 16, PLLM 16,
PLLSAIN 192, PLLSAIR 4, PLLSAIDIVR 8) the formula of the claim, input
times multiplier over post-divider times output divider with no PLLM
prescaler, yields 96, while the source chain yields the requested 6, so
the claim formula does not equal the target pixel clock. -/
theorem spec_c3_claimed_formula_cex :
    specClaimedPxlClock sourcePlan = 96 ∧ pxlClock sourcePlan = 6 ∧
    sourcePlan.target = 6 ∧ specClaimedPxlClock sourcePlan ≠ sourcePlan.target := by
  decide

/-- C3 amended: for every ClockPlan within the documented bounds whose
stages satisfy the source derivation chain, which divides by the PLLM
prescaler as well, the derived pixel clock equals the requested target
exactly. -/
theorem spec_c3_pixel_clock_amended (p : ClockPlan) (hb : p.inBounds)
    (hinv : p.target * (p.pllM * p.saiR * p.saiDivR) = p.input * p.saiN) :
    pxlClock p = p.target := by
  have hpos : 0 < p.pllM * p.saiR * p.saiDivR := by
    obtain ⟨h1, h2, h3, h4, h5, h6, h7⟩ := hb
    have h8 : 0 < p.saiDivR := by rcases h7 with h | h | h | h <;> omega
    positivity
  show p.input * p.saiN / (p.pllM * p.saiR * p.saiDivR) = p.target
  rw [← hinv, Nat.mul_div_cancel _ hpos]

/-- C3 witness: the amended theorem applied at the concrete plan of
init_rgb_clocks, whose derived pixel clock is the requested 6. -/
theorem spec_c3_pixel_clock_amended_witness :
    sourcePlan.inBounds ∧ pxlClock sourcePlan = sourcePlan.target :=
  ⟨by decide, spec_c3_pixel_clock_amended sourcePlan (by decide) (by decide)⟩

/-- C4: for every timing descriptor with positive fields, the four
derived accumulation values of each axis are strictly increasing, each
is the accumulated sum of its categories minus one, and each extends the
previous derived value by exactly the new category. -/
theorem spec_c4_derived_timing_values (t : TimingDescriptor)
    (h1 : 0 < t.hsync) (h2 : 0 < t.hbp) (h3 : 0 < t.hactive) (h4 : 0 < t.hfp)
    (h5 : 0 < t.vsync) (h6 : 0 < t.vbp) (h7 : 0 < t.vactive) (h8 : 0 < t.vfp) :
    (HSW t < AHBP t ∧ AHBP t < AAW t ∧ AAW t < TOTALW t) ∧
    (VSH t < AVBP t ∧ AVBP t < AAH t ∧ AAH t < TOTALH t) ∧
    (HSW t + 1 = t.hsync ∧ AHBP t + 1 = t.hsync + t.hbp ∧
      AAW t + 1 = t.hsync + t.hbp + t.hactive ∧
      TOTALW t + 1 = t.hsync + t.hbp + t.hactive + t.hfp) ∧
    (VSH t + 1 = t.vsync ∧ AVBP t + 1 = t.vsync + t.vbp ∧
      AAH t + 1 = t.vsync + t.vbp + t.vactive ∧
      TOTALH t + 1 = t.vsync + t.vbp + t.vactive + t.vfp) ∧
    (AHBP t = HSW t + t.hbp ∧ AAW t = AHBP t + t.hactive ∧ TOTALW t = AAW t + t.hfp) ∧
    (AVBP t = VSH t + t.vbp ∧ AAH t = AVBP t + t.vactive ∧ TOTALH t = AAH t + t.vfp) := by
  unfold HSW AHBP AAW TOTALW VSH AVBP AAH TOTALH
  omega

/-- C4 witness: the derived-timing theorem applied at the concrete
descriptor of init_rgb_timings. -/
theorem spec_c4_derived_timing_values_witness :
    (HSW lcd_panel < AHBP lcd_panel ∧ AHBP lcd_panel < AAW lcd_panel ∧
      AAW lcd_panel < TOTALW lcd_panel) ∧
    (VSH lcd_panel < AVBP lcd_panel ∧ AVBP lcd_panel < AAH lcd_panel ∧
      AAH lcd_panel < TOTALH lcd_panel) ∧
    (HSW lcd_panel + 1 = lcd_panel.hsync ∧
      AHBP lcd_panel + 1 = lcd_panel.hsync + lcd_panel.hbp ∧
      AAW lcd_panel + 1 = lcd_panel.hsync + lcd_panel.hbp + lcd_panel.hactive ∧
      TOTALW lcd_panel + 1 =
        lcd_panel.hsync + lcd_panel.hbp + lcd_panel.hactive + lcd_panel.hfp) ∧
    (VSH lcd_panel + 1 = lcd_panel.vsync ∧
      AVBP lcd_panel + 1 = lcd_panel.vsync + lcd_panel.vbp ∧
      AAH lcd_panel + 1 = lcd_panel.vsync + lcd_panel.vbp + lcd_panel.vactive ∧
      TOTALH lcd_panel + 1 =
        lcd_panel.vsync + lcd_panel.vbp + lcd_panel.vactive + lcd_panel.vfp) ∧
    (AHBP lcd_panel = HSW lcd_panel + lcd_panel.hbp ∧
      AAW lcd_panel = AHBP lcd_panel + lcd_panel.hactive ∧
      TOTALW lcd_panel = AAW lcd_panel + lcd_panel.hfp) ∧
    (AVBP lcd_panel = VSH lcd_panel + lcd_panel.vbp ∧
      AAH lcd_panel = AVBP lcd_panel + lcd_panel.vactive ∧
      TOTALH lcd_panel = AAH lcd_panel + lcd_panel.vfp) :=
  spec_c4_derived_timing_values lcd_panel (by decide) (by decide) (by decide)
    (by decide) (by decide) (by decide) (by decide) (by decide)

/-- C5: at the concrete descriptor of init_rgb_timings, the total width
is 280 and the total height 328, and the programmed layer window
positions are 30 to 269 horizontally and 4 to 323 vertically. -/
theorem spec_c5_end_to_end_vector :
    lcd_panel.hsync + lcd_panel.hbp + lcd_panel.hactive + lcd_panel.hfp = 280 ∧
    lcd_panel.vsync + lcd_panel.vbp + lcd_panel.vactive + lcd_panel.vfp = 328 ∧
    Ev.assign .LTDC_LWHPCR1 [.n 30, .n 269] ∈ init_rgb_timings_trace lcd_panel ∧
    Ev.assign .LTDC_LWVPCR1 [.n 4, .n 323] ∈ init_rgb_timings_trace lcd_panel := by
  decide

/-- C6: for every timing descriptor, the first accesses of the six
timing-programming targets appear in the trace of init_rgb_timings in
the mandated order: sync width, back-porch accumulation, active-area
accumulation, total-size accumulation, polarity bits, background
color. -/
theorem spec_c6_timing_program_order (t : TimingDescriptor) :
    ((init_rgb_timings_trace t).map Ev.reg).indexOf .LTDC_SSCR <
      ((init_rgb_timings_trace t).map Ev.reg).indexOf .LTDC_BPCR ∧
    ((init_rgb_timings_trace t).map Ev.reg).indexOf .LTDC_BPCR <
      ((init_rgb_timings_trace t).map Ev.reg).indexOf .LTDC_AWCR ∧
    ((init_rgb_timings_trace t).map Ev.reg).indexOf .LTDC_AWCR <
      ((init_rgb_timings_trace t).map Ev.reg).indexOf .LTDC_TWCR ∧
    ((init_rgb_timings_trace t).map Ev.reg).indexOf .LTDC_TWCR <
      ((init_rgb_timings_trace t).map Ev.reg).indexOf .LTDC_GCR ∧
    ((init_rgb_timings_trace t).map Ev.reg).indexOf .LTDC_GCR <
      ((init_rgb_timings_trace t).map Ev.reg).indexOf .LTDC_BCCR := by
  simp only [init_rgb_timings_trace, List.map_cons, List.map_nil, Ev.reg]
  decide

/-- C7 counterexample: the claim requires the reload acceptance to be
confirmed before the global enable, but the bring-up trace of
init_rgb_timings contains the reload request and the global enable and
not a single status read anywhere, so no confirmation of reload
acceptance is ever performed. -/
theorem spec_c7_no_reload_confirmation_cex :
    Ev.orSet .LTDC_GCR [.LTDC_LTDCEN] ∈ init_rgb_timings_trace lcd_panel ∧
    Ev.assign .LTDC_SRCR [.IMR] ∈ init_rgb_timings_trace lcd_panel ∧
    ∀ e ∈ init_rgb_timings_trace lcd_panel, e.isRead = false := by
  decide

/-- C7 amended: in the bring-up trace the global enable of the streaming
engine is the last access; window position, layer enable and the reload
request all strictly precede it, and the reload request strictly
precedes the enable; no acceptance confirmation is performed. -/
theorem spec_c7_enable_ordering_amended :
    (init_rgb_timings_trace lcd_panel).length = 15 ∧
    (init_rgb_timings_trace lcd_panel).indexOf (.orSet .LTDC_GCR [.LTDC_LTDCEN]) = 14 ∧
    (init_rgb_timings_trace lcd_panel).indexOf
        (.assign .LTDC_LWHPCR1 [.n 30, .n 269]) <
      (init_rgb_timings_trace lcd_panel).indexOf (.assign .LTDC_SRCR [.IMR]) ∧
    (init_rgb_timings_trace lcd_panel).indexOf (.assign .LTDC_LCR1 [.LEN]) <
      (init_rgb_timings_trace lcd_panel).indexOf (.assign .LTDC_SRCR [.IMR]) ∧
    (init_rgb_timings_trace lcd_panel).indexOf (.assign .LTDC_SRCR [.IMR]) <
      (init_rgb_timings_trace lcd_panel).indexOf (.orSet .LTDC_GCR [.LTDC_LTDCEN]) := by
  decide

/-- C8 counterexample: a status stream that reads idle with the
ready-to-send flag clear at the first poll. spi_5_write completes and
loads the byte, yet no status read observed before that first load had
the ready-to-send flag set: the code loads each byte first and only
afterwards waits for ready-to-send, so the claim that every byte load is
preceded by a ready-to-send wait fails for the first byte. -/
theorem spec_c8_first_byte_ready_cex :
    spi_5_write srNoTxeFirst [171] 4 0 =
      some (3, [.rdSR 0, .wrDR 171, .rdSR 2, .rdSR 0]) ∧
    txeBeforeFirstWrite [.rdSR 0, .wrDR 171, .rdSR 2, .rdSR 0] = false ∧
    writesOf [.rdSR 0, .wrDR 171, .rdSR 2, .rdSR 0] = [171] := by
  decide

/-- C8 amended: every completed spi_5_write run has a trace of the shape
in-flight wait, then per byte a data-register load followed by a
ready-to-send wait, then a final transfer-complete wait as the last
accesses before returning; the loaded bytes are exactly the buffer in
order, so no byte is dropped and no caller observes a partially-sent
buffer on return. -/
theorem spec_c8_write_trace_amended (sr : Nat → Nat) (data : List Nat)
    (f c c3 : Nat) (tr : List SpiEv)
    (h : spi_5_write sr data f c = some (c3, tr)) :
    phaseStart tr data = true ∧ writesOf tr = data := by
  unfold spi_5_write at h
  cases h0 : pollWhile (fun v => v &&& SPI_BSY != 0) sr f c with
  | none => rw [h0] at h; simp at h
  | some q0 =>
    obtain ⟨c1, es0⟩ := q0
    rw [h0] at h
    dsimp only at h
    cases hs : sendLoop sr f data c1 with
    | none => rw [hs] at h; simp at h
    | some q1 =>
      obtain ⟨c2, str⟩ := q1
      rw [hs] at h
      dsimp only at h
      cases hF : pollWhile (fun v => v &&& SPI_BSY != 0) sr f c2 with
      | none => rw [hF] at h; simp at h
      | some q2 =>
        obtain ⟨c3x, esF⟩ := q2
        rw [hF] at h
        simp only [Option.some.injEq, Prod.mk.injEq] at h
        obtain ⟨h1, h2⟩ := h
        subst h1; subst h2
        constructor
        · rw [pollWhile_bsy_start f c c1 es0 h0]
          exact sendLoop_phase data c1 _ str hs esF (pollWhile_bsy_final f c2 _ esF hF)
        · rw [writesOf_append, writesOf_append,
            pollWhile_reads f c c1 es0 h0,
            sendLoop_writes data c1 _ str hs,
            pollWhile_reads f c2 _ esF hF]
          simp

/-- C8 witness: the amended theorem applied to a concrete completed
run. -/
theorem spec_c8_write_trace_amended_witness :
    phaseStart [SpiEv.rdSR 0, .wrDR 171, .rdSR 2, .rdSR 0] [171] = true ∧
    writesOf [SpiEv.rdSR 0, .wrDR 171, .rdSR 2, .rdSR 0] = [171] :=
  spec_c8_write_trace_amended srNoTxeFirst [171] 4 0 3
    [.rdSR 0, .wrDR 171, .rdSR 2, .rdSR 0] (by decide)

/-- C9: the bring-up trace programs the layer pixel format as L8, the
color-frame-buffer line length as the framebuffer width plus 3, the
pitch as the framebuffer width in bytes, one byte per pixel rather than
the four bytes per pixel of the adjacent source comment, and the line
count as the framebuffer height. -/
theorem spec_c9_layer_pixel_format :
    Ev.assign .LTDC_LPFCR1 [.PF_L8] ∈ init_rgb_timings_trace lcd_panel ∧
    Ev.assign .LTDC_LCFBLR1 [.n (ION_FRAMEBUFFER_WIDTH + 3), .n ION_FRAMEBUFFER_WIDTH] ∈
      init_rgb_timings_trace lcd_panel ∧
    Ev.assign .LTDC_LCFBLNR1 [.n ION_FRAMEBUFFER_HEIGHT] ∈
      init_rgb_timings_trace lcd_panel ∧
    ION_FRAMEBUFFER_WIDTH ≠ 4 * ION_FRAMEBUFFER_WIDTH := by
  decide

/-- C10: for every boolean argument and register state, gpio_c2_write
changes only bit 2 of the GPIOC output-data register to the argument and
gpio_d13_write changes only bit 13 of the GPIOD output-data register to
the argument; every other bit of those registers and every other
register are unchanged. -/
theorem spec_c10_gpio_bit_isolation (b : Bool) (s : RegState) :
    (∀ r, r ≠ Reg.GPIOC_ODR → gpio_c2_write b s r = s r) ∧
    (∀ i, i < 32 → i ≠ 2 →
      (gpio_c2_write b s Reg.GPIOC_ODR).testBit i = (s Reg.GPIOC_ODR).testBit i) ∧
    (gpio_c2_write b s Reg.GPIOC_ODR).testBit 2 = b ∧
    (∀ r, r ≠ Reg.GPIOD_ODR → gpio_d13_write b s r = s r) ∧
    (∀ i, i < 32 → i ≠ 13 →
      (gpio_d13_write b s Reg.GPIOD_ODR).testBit i = (s Reg.GPIOD_ODR).testBit i) ∧
    (gpio_d13_write b s Reg.GPIOD_ODR).testBit 13 = b := by
  have hc : gpio_c2_write b s Reg.GPIOC_ODR = regSetBit (s Reg.GPIOC_ODR) 2 b := by
    simp [gpio_c2_write]
  have hd : gpio_d13_write b s Reg.GPIOD_ODR = regSetBit (s Reg.GPIOD_ODR) 13 b := by
    simp [gpio_d13_write]
  refine ⟨?_, ?_, ?_, ?_, ?_, ?_⟩
  · intro r hr
    simp [gpio_c2_write, hr]
  · intro i hi hne
    rw [hc, regSetBit_testBit _ _ _ _ hi, if_neg hne]
  · rw [hc, regSetBit_testBit _ _ _ _ (by omega), if_pos rfl]
  · intro r hr
    simp [gpio_d13_write, hr]
  · intro i hi hne
    rw [hd, regSetBit_testBit _ _ _ _ hi, if_neg hne]
  · rw [hd, regSetBit_testBit _ _ _ _ (by omega), if_pos rfl]

/-- C10 witness: the isolation theorem applied at a concrete argument
and the all-zero register state. -/
theorem spec_c10_gpio_bit_isolation_witness :
    gpio_c2_write true (fun _ => 0) Reg.GPIOD_ODR = (fun _ => (0 : Nat)) Reg.GPIOD_ODR ∧
    (gpio_c2_write true (fun _ => 0) Reg.GPIOC_ODR).testBit 0 =
      ((fun _ => (0 : Nat)) Reg.GPIOC_ODR).testBit 0 ∧
    (gpio_c2_write true (fun _ => 0) Reg.GPIOC_ODR).testBit 2 = true ∧
    (gpio_d13_write true (fun _ => 0) Reg.GPIOD_ODR).testBit 13 = true :=
  ⟨(spec_c10_gpio_bit_isolation true (fun _ => 0)).1 Reg.GPIOD_ODR (by decide),
   (spec_c10_gpio_bit_isolation true (fun _ => 0)).2.1 0 (by decide) (by decide),
   (spec_c10_gpio_bit_isolation true (fun _ => 0)).2.2.1,
   (spec_c10_gpio_bit_isolation true (fun _ => 0)).2.2.2.2.2⟩

end Display
